import Mathlib

set_option maxHeartbeats 1000000

/-!
Shallow embedding of the byteclicker core (src/main.rs): hit-point accounting,
leveling and experience formulas, stat aggregation, enemy rotation, and the
manual/auto damage loop. `u64` arithmetic is modelled on `Nat` with an explicit
reduction modulo `2 ^ 64` wherever the source operation can wrap; `i64`/`u64`
casts are modelled as two's-complement reinterpretations; the `f64` frame clock
is modelled over `ℚ` (the comparisons the development evaluates it at are exact
in binary floating point as well).
-/

/-- `x as i64` applied to a u64 value in the source. -/
def u64_to_i64 (n : Nat) : Int :=
  if n < 2 ^ 63 then (n : Int) else (n : Int) - 2 ^ 64

/-- `x as u64` applied to an i64 value in the source. -/
def i64_to_u64 (v : Int) : Nat :=
  (v % (2 ^ 64 : Int)).toNat

/-- The `clamp(x, low, high)` helper the source imports from its framework prelude. -/
def mq_clamp (x lo hi : Int) : Int :=
  if x < lo then lo else if x > hi then hi else x

inductive ELevel where
  | ROOKIE
  | CHAMPION
  | ULTIMATE
  deriving DecidableEq

inductive EAttribute where
  | VACCINE
  | DATA
  | VIRUS
  | FREE
  deriving DecidableEq

/-- `HpSystem { hp_base: u64, hp: u64 }`. -/
structure HpSystem where
  hp_base : Nat
  hp : Nat
  deriving DecidableEq

/-- `HpSystem::do_damage(&mut self, value: i64)`. -/
def HpSystem.do_damage (h : HpSystem) (value : Int) : HpSystem :=
  if i64_to_u64 value > h.hp then {h with hp := 0}
  else {h with hp := h.hp - i64_to_u64 value}

/-- `HpSystem::is_alive(&self) -> bool`. -/
def HpSystem.is_alive (h : HpSystem) : Bool :=
  h.hp > 0

/-- `Status { str, def, speed }` (the source field `def` is a Lean keyword, embedded as `def_`). -/
structure Status where
  str : Nat
  def_ : Nat
  speed : Nat
  deriving DecidableEq

/-- `Status::sum`, element-wise wrapping u64 addition. -/
def Status.sum (a b : Status) : Status :=
  { str := (a.str + b.str) % 2 ^ 64,
    def_ := (a.def_ + b.def_) % 2 ^ 64,
    speed := (a.speed + b.speed) % 2 ^ 64 }

/-- `impl Default for Status`. -/
def Status.default : Status :=
  { str := 20, def_ := 10, speed := 10 }

/-- `LevelStatusSystem` (level is u32, experience fields are u64). -/
structure LevelStatusSystem where
  level : Nat
  total_exp : Nat
  status_upgrade : Status
  base_exp_needed : Nat
  needed_multiplier : Nat
  deriving DecidableEq

/-- `LevelStatusSystem::formula_lvlup`: `base_exp_needed * (needed_multiplier + 1).pow(level)` in u64. -/
def LevelStatusSystem.formula_lvlup (s : LevelStatusSystem) : Nat :=
  (s.base_exp_needed * (s.needed_multiplier + 1) ^ s.level) % 2 ^ 64

/-- `LevelStatusSystem::to_next_level`. -/
def LevelStatusSystem.to_next_level (s : LevelStatusSystem) : Int :=
  if s.level < 999 then u64_to_i64 s.formula_lvlup - u64_to_i64 s.total_exp else 0

/-- `LevelStatusSystem::update_exp`: one experience award followed by a single level-up check. -/
def LevelStatusSystem.update_exp (s : LevelStatusSystem) (exp : Nat) : LevelStatusSystem :=
  let s1 : LevelStatusSystem := {s with total_exp := (s.total_exp + exp) % 2 ^ 64}
  if s1.formula_lvlup < s1.total_exp ∧ s1.level < 999 then {s1 with level := s1.level + 1} else s1

/-- `LevelStatusSystem::given_exp(&self, lvl: u32) -> u64`. -/
def LevelStatusSystem.given_exp (s : LevelStatusSystem) (lvl : Nat) : Nat :=
  (s.formula_lvlup / 2 * (mq_clamp ((s.level : Int) - (lvl : Int)) 1 999).toNat + 1) % 2 ^ 64

/-- `LevelStatusSystem::get_upgraded_status`. -/
def LevelStatusSystem.get_upgraded_status (s : LevelStatusSystem) : Status :=
  { str := (s.status_upgrade.str * s.level) % 2 ^ 64,
    speed := (s.status_upgrade.speed * s.level) % 2 ^ 64,
    def_ := (s.status_upgrade.def_ * s.level) % 2 ^ 64 }

/-- `impl Default for LevelStatusSystem`. -/
def LevelStatusSystem.default : LevelStatusSystem :=
  { level := 1, total_exp := 0, base_exp_needed := 30,
    status_upgrade := { str := 5, def_ := 4, speed := 2 },
    needed_multiplier := 1 }

/-- The level-up threshold exactly as the spec states it, with no machine-width reduction:
`base_exp_needed * (growth_multiplier + 1)^level` over unbounded integers. -/
def formula_lvlup_math (s : LevelStatusSystem) : Nat :=
  s.base_exp_needed * (s.needed_multiplier + 1) ^ s.level

/-- `BytePet` (the source field `attribute` is a Lean keyword, embedded as `attribute_`). -/
structure BytePet where
  id : Nat
  s_level : LevelStatusSystem
  byte_level : ELevel
  attribute_ : EAttribute
  status : Status
  deriving DecidableEq

/-- `BytePet::get_power`: base status plus level-scaled upgrade, per component. -/
def BytePet.get_power (p : BytePet) : Status :=
  { str := (p.status.str + p.s_level.get_upgraded_status.str) % 2 ^ 64,
    def_ := (p.status.def_ + p.s_level.get_upgraded_status.def_) % 2 ^ 64,
    speed := (p.status.speed + p.s_level.get_upgraded_status.speed) % 2 ^ 64 }

/-- `impl Default for BytePet`. -/
def BytePet.default : BytePet :=
  { id := 1, s_level := LevelStatusSystem.default, byte_level := ELevel.ROOKIE,
    attribute_ := EAttribute.FREE, status := Status.default }

/-- `Battler`. -/
structure Battler where
  s_hp : HpSystem
  name : String
  turn_timer : Nat
  data : BytePet
  deriving DecidableEq

/-- `TeamManager { active_team: [Option<Battler>; 3] }`, the fixed 3-slot array unrolled. -/
structure TeamManager where
  slot0 : Option Battler
  slot1 : Option Battler
  slot2 : Option Battler
  deriving DecidableEq

/-- `TeamManager::get_team_power`: fold `Status::sum` over the occupied slots in index order. -/
def TeamManager.get_team_power (t : TeamManager) : Status :=
  let s0 : Status := { str := 0, def_ := 0, speed := 0 }
  let s1 : Status := match t.slot0 with | some x => s0.sum x.data.get_power | none => s0
  let s2 : Status := match t.slot1 with | some x => s1.sum x.data.get_power | none => s1
  match t.slot2 with | some x => s2.sum x.data.get_power | none => s2

/-- `Player`. -/
structure Player where
  clicks : Nat
  total_defeated : Nat
  active_team : TeamManager
  deriving DecidableEq

/-- `Player::add_pet`: the `for e in iter_mut` loop over the 3-slot array, unrolled. -/
def Player.add_pet (p : Player) (new_bp : Battler) : Player × Bool :=
  match p.active_team.slot0 with
  | none => ({p with active_team := {p.active_team with slot0 := some new_bp}}, true)
  | some _ =>
      match p.active_team.slot1 with
      | none => ({p with active_team := {p.active_team with slot1 := some new_bp}}, true)
      | some _ =>
          match p.active_team.slot2 with
          | none => ({p with active_team := {p.active_team with slot2 := some new_bp}}, true)
          | some _ => (p, false)

/-- One iteration of the `Player::add_exp_to_pets` loop body on one slot. -/
def awardExpSlot (exp : Nat) : Option Battler → Option Battler
  | some x => some {x with data := {x.data with s_level := x.data.s_level.update_exp exp}}
  | none => none

/-- `Player::add_exp_to_pets`. -/
def Player.add_exp_to_pets (p : Player) (exp : Nat) : Player :=
  {p with active_team :=
    { slot0 := awardExpSlot exp p.active_team.slot0,
      slot1 := awardExpSlot exp p.active_team.slot1,
      slot2 := awardExpSlot exp p.active_team.slot2 }}

/-- `Player::get_power`: `0 + team strength as i64`. -/
def Player.get_power (p : Player) : Int :=
  0 + u64_to_i64 p.active_team.get_team_power.str

/-- `Scene`. -/
structure Scene where
  name : String
  possible_enemies : List Battler
  active_enemy : Battler
  deriving DecidableEq

/-- `Scene::new_enemy`: replace the active enemy with `possible_enemies.get(0)` when present. -/
def Scene.new_enemy (s : Scene) : Scene :=
  match s.possible_enemies.head? with
  | some x => {s with active_enemy := x}
  | none => s

/-- `Scene::check_enemy_defeated`. -/
def Scene.check_enemy_defeated (s : Scene) : Scene × Option Battler :=
  if !s.active_enemy.s_hp.is_alive then (s.new_enemy, some s.active_enemy)
  else (s, none)

/-- `Scene::do_damage`. -/
def Scene.do_damage (s : Scene) (dmg : Int) : Scene × Option Battler :=
  Scene.check_enemy_defeated
    {s with active_enemy := {s.active_enemy with s_hp := s.active_enemy.s_hp.do_damage dmg}}

/-- `GameState`. -/
structure GameState where
  player : Player
  scene : Scene
  frame_time : ℚ
  deriving DecidableEq

/-- `GameState::update_time`. -/
def GameState.update_time (gs : GameState) (dt : ℚ) : GameState :=
  {gs with frame_time := gs.frame_time + dt}

/-- `GameState::manual_dmg`. -/
def GameState.manual_dmg (gs : GameState) : GameState :=
  match gs.scene.do_damage gs.player.get_power with
  | (scene1, some x) =>
      {gs with scene := scene1,
               player :=
                 {Player.add_exp_to_pets {gs.player with clicks := (gs.player.clicks + 1) % 2 ^ 64}
                     (x.data.s_level.given_exp 1) with
                   total_defeated := (gs.player.total_defeated + 1) % 2 ^ 64}}
  | (scene1, none) =>
      {gs with scene := scene1,
               player := {gs.player with clicks := (gs.player.clicks + 1) % 2 ^ 64}}

/-- `GameState::auto_dmg`: add `dt` to the clock; a single `if` (not a loop) fires at most one attack. -/
def GameState.auto_dmg (gs : GameState) (dt : ℚ) : GameState :=
  if (gs.update_time dt).frame_time ≥ 3 / 5 then
    GameState.manual_dmg {gs.update_time dt with frame_time := (gs.update_time dt).frame_time - 3 / 5}
  else gs.update_time dt

/-- One driving-loop event: an auto-attack tick with its elapsed time, or a manual attack. -/
inductive GameOp where
  | tick (dt : ℚ)
  | manual
  deriving DecidableEq

/-- Dispatch one driving-loop event, as the `update` loop in the source does. -/
def GameState.step (gs : GameState) : GameOp → GameState
  | GameOp.tick dt => gs.auto_dmg dt
  | GameOp.manual => gs.manual_dmg

/-- Run a sequence of driving-loop events from a starting state. -/
def GameState.run (gs : GameState) (ops : List GameOp) : GameState :=
  ops.foldl GameState.step gs

/-- A tick event whose elapsed time lies within one tick interval; manual events are unconstrained. -/
def GameOp.bounded : GameOp → Prop
  | GameOp.tick dt => 0 ≤ dt ∧ dt ≤ 3 / 5
  | GameOp.manual => True

/-- A concrete allied combatant with deterministic hit points and default data. -/
def petW : Battler :=
  { s_hp := { hp_base := 300, hp := 300 }, name := "", turn_timer := 0, data := BytePet.default }

/-- A concrete enemy with 1000 hit points. -/
def enemyW : Battler :=
  { s_hp := { hp_base := 1000, hp := 1000 }, name := "", turn_timer := 0, data := BytePet.default }

/-- A concrete fresh game session: one ally, a healthy enemy, a zeroed clock. -/
def gsW : GameState :=
  { player := { clicks := 0, total_defeated := 0,
                active_team := { slot0 := some petW, slot1 := none, slot2 := none } },
    scene := { name := "", possible_enemies := [enemyW], active_enemy := enemyW },
    frame_time := 0 }

/-- A concrete enemy with 5 hit points. -/
def victimW : Battler :=
  { s_hp := { hp_base := 5, hp := 5 }, name := "", turn_timer := 0, data := BytePet.default }

/-- A concrete scene whose enemy-template pool is empty. -/
def deadPoolScene : Scene :=
  { name := "", possible_enemies := [], active_enemy := victimW }

/-- A concrete already-dead enemy (0 hit points). -/
def deadW : Battler :=
  { s_hp := { hp_base := 7, hp := 0 }, name := "", turn_timer := 0, data := BytePet.default }

/-- A concrete session with an empty template pool and a dead active enemy. -/
def gsDeadW : GameState :=
  { player := { clicks := 0, total_defeated := 0,
                active_team := { slot0 := some petW, slot1 := none, slot2 := none } },
    scene := { name := "", possible_enemies := [], active_enemy := deadW },
    frame_time := 0 }

theorem i64_u64_roundtrip (n : Nat) (h : n < 2 ^ 64) : i64_to_u64 (u64_to_i64 n) = n := by
  unfold u64_to_i64 i64_to_u64
  split <;> omega

theorem get_team_power_str_lt (t : TeamManager) : t.get_team_power.str < 2 ^ 64 := by
  obtain ⟨o0, o1, o2⟩ := t
  cases o0 <;> cases o1 <;> cases o2 <;>
    simp [TeamManager.get_team_power, Status.sum] <;> omega

theorem Scene.do_damage_eq (s : Scene) (dmg : Int) :
    s.do_damage dmg =
      if i64_to_u64 dmg < s.active_enemy.s_hp.hp then
        ({s with active_enemy := {s.active_enemy with s_hp :=
            { hp_base := s.active_enemy.s_hp.hp_base,
              hp := s.active_enemy.s_hp.hp - i64_to_u64 dmg }}}, none)
      else
        (Scene.new_enemy {s with active_enemy := {s.active_enemy with s_hp :=
            { hp_base := s.active_enemy.s_hp.hp_base, hp := 0 }}},
         some {s.active_enemy with s_hp :=
            { hp_base := s.active_enemy.s_hp.hp_base, hp := 0 }}) := by
  rcases lt_or_ge (i64_to_u64 dmg) s.active_enemy.s_hp.hp with hlt | hge
  · have h1 : ¬ (i64_to_u64 dmg > s.active_enemy.s_hp.hp) := by omega
    have h2 : 0 < s.active_enemy.s_hp.hp - i64_to_u64 dmg := by omega
    simp [Scene.do_damage, HpSystem.do_damage, Scene.check_enemy_defeated, HpSystem.is_alive,
      h1, h2, hlt]
  · have hnlt : ¬ i64_to_u64 dmg < s.active_enemy.s_hp.hp := by omega
    by_cases h1 : i64_to_u64 dmg > s.active_enemy.s_hp.hp
    · simp [Scene.do_damage, HpSystem.do_damage, Scene.check_enemy_defeated, HpSystem.is_alive,
        h1, hnlt]
    · have h3 : s.active_enemy.s_hp.hp - i64_to_u64 dmg = 0 := by omega
      simp [Scene.do_damage, HpSystem.do_damage, Scene.check_enemy_defeated, HpSystem.is_alive,
        h1, h3, hnlt]

theorem GameState.manual_dmg_some (gs : GameState) (s1 : Scene) (x : Battler)
    (h : gs.scene.do_damage gs.player.get_power = (s1, some x)) :
    gs.manual_dmg =
      {gs with scene := s1,
               player :=
                 {Player.add_exp_to_pets {gs.player with clicks := (gs.player.clicks + 1) % 2 ^ 64}
                     (x.data.s_level.given_exp 1) with
                   total_defeated := (gs.player.total_defeated + 1) % 2 ^ 64}} := by
  unfold GameState.manual_dmg
  rw [h]

theorem GameState.manual_dmg_none (gs : GameState) (s1 : Scene)
    (h : gs.scene.do_damage gs.player.get_power = (s1, none)) :
    gs.manual_dmg =
      {gs with scene := s1,
               player := {gs.player with clicks := (gs.player.clicks + 1) % 2 ^ 64}} := by
  unfold GameState.manual_dmg
  rw [h]

theorem GameState.manual_dmg_frame_time (gs : GameState) :
    gs.manual_dmg.frame_time = gs.frame_time := by
  unfold GameState.manual_dmg
  cases hr : gs.scene.do_damage gs.player.get_power with
  | mk s1 o => cases o <;> rfl

theorem GameState.manual_dmg_clicks (gs : GameState) :
    gs.manual_dmg.player.clicks = (gs.player.clicks + 1) % 2 ^ 64 := by
  unfold GameState.manual_dmg
  cases hr : gs.scene.do_damage gs.player.get_power with
  | mk s1 o => cases o <;> rfl

theorem GameState.auto_dmg_fire (gs : GameState) (dt : ℚ) (h : 3 / 5 ≤ gs.frame_time + dt) :
    gs.auto_dmg dt = GameState.manual_dmg {gs with frame_time := gs.frame_time + dt - 3 / 5} := by
  unfold GameState.auto_dmg GameState.update_time
  split_ifs with hc
  · rfl
  · exact absurd h hc

theorem GameState.auto_dmg_skip (gs : GameState) (dt : ℚ) (h : gs.frame_time + dt < 3 / 5) :
    gs.auto_dmg dt = {gs with frame_time := gs.frame_time + dt} := by
  unfold GameState.auto_dmg GameState.update_time
  split_ifs with hc
  · exact absurd hc (not_le.mpr h)
  · rfl

/-- Claim C7: after `HpSystem::do_damage` with a non-negative i64 amount, the hit points equal
`max(old_hp - d, 0)`, the `0 ≤ hp ≤ hp_base` invariant is preserved, and `hp_base` is unchanged. -/
theorem hp_do_damage_clamps (h : HpSystem) (d : Int)
    (hinv : h.hp ≤ h.hp_base) (hd0 : 0 ≤ d) (hd1 : d < 2 ^ 63) :
    ((h.do_damage d).hp : Int) = max ((h.hp : Int) - d) 0
    ∧ (h.do_damage d).hp ≤ (h.do_damage d).hp_base
    ∧ (h.do_damage d).hp_base = h.hp_base := by
  have hc : i64_to_u64 d = d.toNat := by unfold i64_to_u64; omega
  unfold HpSystem.do_damage
  rw [hc]
  split_ifs with hgt
  · refine ⟨?_, Nat.zero_le _, rfl⟩
    simp only []
    omega
  · refine ⟨?_, le_trans (Nat.sub_le _ _) hinv, rfl⟩
    simp only []
    omega

/-- Claim C7 witness: a tracker at 50/100 hit by 70 drops to exactly 0. -/
theorem hp_do_damage_clamps_witness :
    (((HpSystem.mk 100 50).do_damage 70).hp : Int) = max (((HpSystem.mk 100 50).hp : Int) - 70) 0
    ∧ ((HpSystem.mk 100 50).do_damage 70).hp ≤ ((HpSystem.mk 100 50).do_damage 70).hp_base
    ∧ ((HpSystem.mk 100 50).do_damage 70).hp_base = (HpSystem.mk 100 50).hp_base :=
  hp_do_damage_clamps (HpSystem.mk 100 50) 70 (by decide) (by decide) (by decide)

/-- Claim C9: `Player::add_pet` fills the first (lowest-index) empty slot and returns true;
on a full roster it returns false and leaves the whole player (hence every slot) unchanged. -/
theorem add_pet_first_empty_slot (p : Player) (b : Battler) :
    p.add_pet b =
      if p.active_team.slot0 = none then
        ({p with active_team := {p.active_team with slot0 := some b}}, true)
      else if p.active_team.slot1 = none then
        ({p with active_team := {p.active_team with slot1 := some b}}, true)
      else if p.active_team.slot2 = none then
        ({p with active_team := {p.active_team with slot2 := some b}}, true)
      else (p, false) := by
  obtain ⟨c, td, ⟨o0, o1, o2⟩⟩ := p
  cases o0 <;> cases o1 <;> cases o2 <;> simp [Player.add_pet]

/-- Claim C4: for `level < 999`, `update_exp` adds the amount to `total_exp` (wrapping u64
addition) and then raises the level by exactly 1 precisely when the new total strictly exceeds
`formula_lvlup` at the current level; the level moves by at most one step per call. -/
theorem update_exp_single_check (s : LevelStatusSystem) (exp : Nat) (h : s.level < 999) :
    (s.update_exp exp).total_exp = (s.total_exp + exp) % 2 ^ 64
    ∧ ((s.update_exp exp).level = s.level + 1 ↔ s.formula_lvlup < (s.total_exp + exp) % 2 ^ 64)
    ∧ ((s.update_exp exp).level = s.level ∨ (s.update_exp exp).level = s.level + 1) := by
  have hf : LevelStatusSystem.formula_lvlup {s with total_exp := (s.total_exp + exp) % 2 ^ 64}
      = s.formula_lvlup := rfl
  simp only [LevelStatusSystem.update_exp]
  split_ifs with hc
  · rw [hf] at hc
    refine ⟨rfl, ?_, Or.inr rfl⟩
    dsimp only
    exact ⟨fun _ => hc.1, fun _ => rfl⟩
  · rw [hf] at hc
    push_neg at hc
    refine ⟨rfl, ?_, Or.inl rfl⟩
    dsimp only
    constructor
    · intro habs; omega
    · intro hlt; exact absurd (hc hlt) (not_le.mpr h)

/-- Claim C4 witness: the default progression (level 1, threshold 60) awarded 100 experience
levels up exactly once. -/
theorem update_exp_single_check_witness :
    (LevelStatusSystem.default.update_exp 100).total_exp
        = (LevelStatusSystem.default.total_exp + 100) % 2 ^ 64
    ∧ ((LevelStatusSystem.default.update_exp 100).level = LevelStatusSystem.default.level + 1 ↔
        LevelStatusSystem.default.formula_lvlup
          < (LevelStatusSystem.default.total_exp + 100) % 2 ^ 64)
    ∧ ((LevelStatusSystem.default.update_exp 100).level = LevelStatusSystem.default.level
        ∨ (LevelStatusSystem.default.update_exp 100).level = LevelStatusSystem.default.level + 1) :=
  update_exp_single_check LevelStatusSystem.default 100 (by decide)

/-- Claim C5: with the default constants the mathematical threshold is `30 * 2^level`, which
reaches `2^64` at every level from 60 on, so the wrapping u64 `formula_lvlup` no longer equals
the specified threshold anywhere in 60..999. -/
theorem formula_lvlup_overflows (lvl : Nat) (h60 : 60 ≤ lvl) (_h999 : lvl ≤ 999) :
    formula_lvlup_math {LevelStatusSystem.default with level := lvl} = 30 * 2 ^ lvl
    ∧ 2 ^ 64 ≤ 30 * 2 ^ lvl
    ∧ LevelStatusSystem.formula_lvlup {LevelStatusSystem.default with level := lvl}
        ≠ formula_lvlup_math {LevelStatusSystem.default with level := lvl} := by
  have h1 : formula_lvlup_math {LevelStatusSystem.default with level := lvl} = 30 * 2 ^ lvl := rfl
  have h2 : (2 : Nat) ^ 64 ≤ 30 * 2 ^ lvl := by
    calc (2 : Nat) ^ 64 ≤ 30 * 2 ^ 60 := by norm_num
    _ ≤ 30 * 2 ^ lvl := Nat.mul_le_mul_left 30 (Nat.pow_le_pow_right (by norm_num) h60)
  refine ⟨h1, h2, ?_⟩
  have h3 : LevelStatusSystem.formula_lvlup {LevelStatusSystem.default with level := lvl}
      = (30 * 2 ^ lvl) % 2 ^ 64 := rfl
  rw [h3, h1]
  have h4 : (30 * 2 ^ lvl) % 2 ^ 64 < 2 ^ 64 := Nat.mod_lt _ (by positivity)
  omega

/-- Claim C5 witness: the divergence holds concretely at level 60. -/
theorem formula_lvlup_overflows_witness :
    formula_lvlup_math {LevelStatusSystem.default with level := 60} = 30 * 2 ^ 60
    ∧ 2 ^ 64 ≤ 30 * 2 ^ 60
    ∧ LevelStatusSystem.formula_lvlup {LevelStatusSystem.default with level := 60}
        ≠ formula_lvlup_math {LevelStatusSystem.default with level := 60} :=
  formula_lvlup_overflows 60 (by norm_num) (by norm_num)

/-- Claim C8: `given_exp` computes `formula_lvlup / 2 * clamp(level - lvl, 1, 999) + 1` with
truncating division (the spec clamp written with min/max), and the clamped level-difference
multiplier is always at least 1, also when the argument level is at or above the owner level. -/
theorem given_exp_matches_spec (s : LevelStatusSystem) (lvl : Nat) :
    s.given_exp lvl
      = (s.formula_lvlup / 2 * (max 1 (min 999 ((s.level : Int) - (lvl : Int)))).toNat + 1) % 2 ^ 64
    ∧ 1 ≤ (mq_clamp ((s.level : Int) - (lvl : Int)) 1 999).toNat := by
  have hcl : mq_clamp ((s.level : Int) - (lvl : Int)) 1 999
      = max 1 (min 999 ((s.level : Int) - (lvl : Int))) := by
    unfold mq_clamp
    split_ifs <;> omega
  constructor
  · unfold LevelStatusSystem.given_exp
    rw [hcl]
  · unfold mq_clamp
    split_ifs <;> omega

theorem add_exp_to_pets_active_team (p q : Player) (e : Nat) (h : p.active_team = q.active_team) :
    (p.add_exp_to_pets e).active_team = (q.add_exp_to_pets e).active_team := by
  unfold Player.add_exp_to_pets
  dsimp only
  rw [h]

theorem do_damage_dead_empty (s : Scene) (hpool : s.possible_enemies = [])
    (hdead : s.active_enemy.s_hp.hp = 0) (d : Int) :
    s.do_damage d = (s, some s.active_enemy) := by
  obtain ⟨nm, pe, ae⟩ := s
  obtain ⟨⟨base, hp⟩, anm, tt, adata⟩ := ae
  dsimp only at hpool hdead
  subst hpool
  subst hdead
  rw [Scene.do_damage_eq]
  rw [if_neg (Nat.not_lt_zero _)]
  rfl

theorem frame_time_step_preserves (gs : GameState) (op : GameOp)
    (h0 : 0 ≤ gs.frame_time) (h1 : gs.frame_time < 3 / 5) (hb : op.bounded) :
    0 ≤ (gs.step op).frame_time ∧ (gs.step op).frame_time < 3 / 5 := by
  cases op with
  | manual =>
      simp only [GameState.step]
      rw [GameState.manual_dmg_frame_time]
      exact ⟨h0, h1⟩
  | tick dt =>
      obtain ⟨hd0, hd1⟩ := hb
      simp only [GameState.step]
      rcases le_or_lt (3 / 5 : ℚ) (gs.frame_time + dt) with hge | hlt
      · rw [GameState.auto_dmg_fire gs dt hge, GameState.manual_dmg_frame_time]
        dsimp only
        constructor <;> linarith
      · rw [GameState.auto_dmg_skip gs dt hlt]
        dsimp only
        constructor <;> linarith

theorem frame_time_run_preserves (ops : List GameOp) :
    ∀ gs : GameState, 0 ≤ gs.frame_time → gs.frame_time < 3 / 5 →
      (∀ op ∈ ops, op.bounded) →
      0 ≤ (gs.run ops).frame_time ∧ (gs.run ops).frame_time < 3 / 5 := by
  induction ops with
  | nil => intro gs h0 h1 _; exact ⟨h0, h1⟩
  | cons op rest ih =>
      intro gs h0 h1 hb
      have hstep := frame_time_step_preserves gs op h0 h1 (hb op (List.mem_cons_self op rest))
      exact ih (gs.step op) hstep.1 hstep.2 (fun o ho => hb o (List.mem_cons_of_mem op ho))

/-- Claim C1 (amended): one `auto_dmg` call resolves at most one attack: whenever the
accumulated time reaches the 0.6 interval, it subtracts a single interval and performs exactly
one manual-attack resolution, carrying the remaining excess over to later calls — it does not
fire once per whole interval contained in the accumulated time. -/
theorem auto_dmg_consumes_single_interval (gs : GameState) (dt : ℚ)
    (h : 3 / 5 ≤ gs.frame_time + dt) :
    gs.auto_dmg dt = GameState.manual_dmg {gs with frame_time := gs.frame_time + dt - 3 / 5} := by
  unfold GameState.auto_dmg GameState.update_time
  split_ifs with hc
  · rfl
  · exact absurd h hc

/-- Claim C1 witness: the single-interval consumption rule applied at a concrete state with
dt = 1.8. -/
theorem auto_dmg_consumes_single_interval_witness :
    gsW.auto_dmg (9 / 5)
      = GameState.manual_dmg {gsW with frame_time := gsW.frame_time + 9 / 5 - 3 / 5} :=
  auto_dmg_consumes_single_interval gsW (9 / 5) (by norm_num [gsW])

/-- Claim C1 counterexample: from a concrete fresh session, `tick(1.8)` resolves exactly one
attack while three `tick(0.6)` calls resolve three, so the two final states differ. -/
theorem tick_oversized_differs_from_three_ticks :
    (gsW.auto_dmg (9 / 5)).player.clicks = 1
    ∧ (((gsW.auto_dmg (3 / 5)).auto_dmg (3 / 5)).auto_dmg (3 / 5)).player.clicks = 3
    ∧ gsW.auto_dmg (9 / 5) ≠ ((gsW.auto_dmg (3 / 5)).auto_dmg (3 / 5)).auto_dmg (3 / 5) := by
  have hfr : gsW.frame_time = 0 := rfl
  have hcl : gsW.player.clicks = 0 := rfl
  have h1 : gsW.auto_dmg (9 / 5)
      = GameState.manual_dmg {gsW with frame_time := gsW.frame_time + 9 / 5 - 3 / 5} :=
    GameState.auto_dmg_fire gsW (9 / 5) (by rw [hfr]; norm_num)
  have hL : (gsW.auto_dmg (9 / 5)).player.clicks = 1 := by
    rw [h1, GameState.manual_dmg_clicks]
    dsimp only
    rw [hcl]
    norm_num
  have ha : gsW.auto_dmg (3 / 5)
      = GameState.manual_dmg {gsW with frame_time := gsW.frame_time + 3 / 5 - 3 / 5} :=
    GameState.auto_dmg_fire gsW (3 / 5) (by rw [hfr]; norm_num)
  have ha_fr : (gsW.auto_dmg (3 / 5)).frame_time = 0 := by
    rw [ha, GameState.manual_dmg_frame_time]
    dsimp only
    rw [hfr]
    norm_num
  have ha_cl : (gsW.auto_dmg (3 / 5)).player.clicks = 1 := by
    rw [ha, GameState.manual_dmg_clicks]
    dsimp only
    rw [hcl]
    norm_num
  have hb : (gsW.auto_dmg (3 / 5)).auto_dmg (3 / 5)
      = GameState.manual_dmg {gsW.auto_dmg (3 / 5) with
          frame_time := (gsW.auto_dmg (3 / 5)).frame_time + 3 / 5 - 3 / 5} :=
    GameState.auto_dmg_fire _ (3 / 5) (by rw [ha_fr]; norm_num)
  have hb_fr : ((gsW.auto_dmg (3 / 5)).auto_dmg (3 / 5)).frame_time = 0 := by
    rw [hb, GameState.manual_dmg_frame_time]
    dsimp only
    rw [ha_fr]
    norm_num
  have hb_cl : ((gsW.auto_dmg (3 / 5)).auto_dmg (3 / 5)).player.clicks = 2 := by
    rw [hb, GameState.manual_dmg_clicks]
    dsimp only
    rw [ha_cl]
    norm_num
  have hR : (((gsW.auto_dmg (3 / 5)).auto_dmg (3 / 5)).auto_dmg (3 / 5)).player.clicks = 3 := by
    rw [GameState.auto_dmg_fire _ (3 / 5) (by rw [hb_fr]; norm_num),
      GameState.manual_dmg_clicks]
    dsimp only
    rw [hb_cl]
    norm_num
  refine ⟨hL, hR, ?_⟩
  intro heq
  rw [heq, hR] at hL
  exact absurd hL (by norm_num)

/-- Claim C2 (amended): starting from the initial clock (frame_time = 0), along any sequence of
manual attacks and ticks whose per-call dt satisfies 0 ≤ dt ≤ 0.6, every reachable state — in
particular the state immediately after each tick — satisfies 0 ≤ frame_time < 0.6. -/
theorem frame_time_invariant_bounded_dt (gs : GameState) (ops : List GameOp)
    (hinit : gs.frame_time = 0) (hops : ∀ op ∈ ops, op.bounded) :
    0 ≤ (gs.run ops).frame_time ∧ (gs.run ops).frame_time < 3 / 5 :=
  frame_time_run_preserves ops gs (by rw [hinit]) (by rw [hinit]; norm_num) hops

/-- Claim C2 witness: the bounded-dt invariant applied to a concrete three-event run. -/
theorem frame_time_invariant_bounded_dt_witness :
    0 ≤ (gsW.run [GameOp.tick (3 / 5), GameOp.manual, GameOp.tick (1 / 2)]).frame_time
    ∧ (gsW.run [GameOp.tick (3 / 5), GameOp.manual, GameOp.tick (1 / 2)]).frame_time < 3 / 5 :=
  frame_time_invariant_bounded_dt gsW [GameOp.tick (3 / 5), GameOp.manual, GameOp.tick (1 / 2)]
    rfl (by intro op hop; fin_cases hop <;> simp [GameOp.bounded] <;> norm_num)

/-- Claim C2 counterexample: from a concrete initial state (frame_time = 0) the single tick
call `tick(1.8)` ends with frame_time = 1.2, violating the claimed bound frame_time < 0.6. -/
theorem frame_time_invariant_violated :
    (gsW.auto_dmg (9 / 5)).frame_time = 6 / 5
    ∧ ¬ (gsW.auto_dmg (9 / 5)).frame_time < 3 / 5 := by
  have hfr : gsW.frame_time = 0 := rfl
  have h1 : gsW.auto_dmg (9 / 5)
      = GameState.manual_dmg {gsW with frame_time := gsW.frame_time + 9 / 5 - 3 / 5} :=
    GameState.auto_dmg_fire gsW (9 / 5) (by rw [hfr]; norm_num)
  have h2 : (gsW.auto_dmg (9 / 5)).frame_time = 6 / 5 := by
    rw [h1, GameState.manual_dmg_frame_time]
    dsimp only
    rw [hfr]
    norm_num
  exact ⟨h2, by rw [h2]; norm_num⟩

/-- Claim C3: evaluating the code at the point where the claim requires a configuration error:
with an empty template pool, a lethal `do_damage` proceeds silently — it returns the defeated
snapshot and keeps the dead enemy active instead of failing. -/
theorem empty_pool_damage_proceeds_silently :
    (deadPoolScene.do_damage 10).2 = some {victimW with s_hp := { hp_base := 5, hp := 0 }}
    ∧ (deadPoolScene.do_damage 10).1.active_enemy
        = {victimW with s_hp := { hp_base := 5, hp := 0 }}
    ∧ (deadPoolScene.do_damage 10).1.possible_enemies = [] := by
  refine ⟨?_, ?_, ?_⟩ <;> rfl

/-- Claim C6: `manual_dmg` always increments the click counter by exactly 1; when the team
strength meets the enemy hit points the enemy is defeated, `total_defeated` rises by exactly 1
and the whole roster is awarded the defeated enemy's `given_exp(1)`; when the enemy survives,
`total_defeated` and the roster are unchanged and the enemy lost exactly the team strength. -/
theorem manual_dmg_resolution (gs : GameState)
    (_halive : 0 < gs.scene.active_enemy.s_hp.hp)
    (hclicks : gs.player.clicks + 1 < 2 ^ 64)
    (hdef : gs.player.total_defeated + 1 < 2 ^ 64) :
    gs.manual_dmg.player.clicks = gs.player.clicks + 1
    ∧ (gs.scene.active_enemy.s_hp.hp ≤ gs.player.active_team.get_team_power.str →
        gs.manual_dmg.player.total_defeated = gs.player.total_defeated + 1
        ∧ gs.manual_dmg.player.active_team
            = (gs.player.add_exp_to_pets (gs.scene.active_enemy.data.s_level.given_exp 1)).active_team)
    ∧ (gs.player.active_team.get_team_power.str < gs.scene.active_enemy.s_hp.hp →
        gs.manual_dmg.player.total_defeated = gs.player.total_defeated
        ∧ gs.manual_dmg.player.active_team = gs.player.active_team
        ∧ gs.manual_dmg.scene.active_enemy.s_hp.hp
            = gs.scene.active_enemy.s_hp.hp - gs.player.active_team.get_team_power.str) := by
  have hdmg : i64_to_u64 gs.player.get_power = gs.player.active_team.get_team_power.str := by
    unfold Player.get_power
    rw [zero_add]
    exact i64_u64_roundtrip _ (get_team_power_str_lt _)
  have hclick : gs.manual_dmg.player.clicks = gs.player.clicks + 1 := by
    rw [GameState.manual_dmg_clicks]
    exact Nat.mod_eq_of_lt hclicks
  refine ⟨hclick, ?_, ?_⟩
  · intro hle
    have hnlt : ¬ i64_to_u64 gs.player.get_power < gs.scene.active_enemy.s_hp.hp := by
      rw [hdmg]; omega
    have hd : gs.scene.do_damage gs.player.get_power
        = (Scene.new_enemy {gs.scene with active_enemy := {gs.scene.active_enemy with s_hp :=
              { hp_base := gs.scene.active_enemy.s_hp.hp_base, hp := 0 }}},
           some {gs.scene.active_enemy with s_hp :=
              { hp_base := gs.scene.active_enemy.s_hp.hp_base, hp := 0 }}) := by
      rw [Scene.do_damage_eq, if_neg hnlt]
    have hm := GameState.manual_dmg_some gs _ _ hd
    constructor
    · rw [hm]
      dsimp only
      exact Nat.mod_eq_of_lt hdef
    · rw [hm]
      exact add_exp_to_pets_active_team _ _ _ rfl
  · intro hlt
    have hlt2 : i64_to_u64 gs.player.get_power < gs.scene.active_enemy.s_hp.hp := by
      rw [hdmg]; exact hlt
    have hd : gs.scene.do_damage gs.player.get_power
        = ({gs.scene with active_enemy := {gs.scene.active_enemy with s_hp :=
              { hp_base := gs.scene.active_enemy.s_hp.hp_base,
                hp := gs.scene.active_enemy.s_hp.hp - i64_to_u64 gs.player.get_power }}}, none) := by
      rw [Scene.do_damage_eq, if_pos hlt2]
    have hm := GameState.manual_dmg_none gs _ hd
    refine ⟨?_, ?_, ?_⟩
    · rw [hm]
    · rw [hm]
    · rw [hm]
      dsimp only
      rw [hdmg]

/-- Claim C6 witness: one manual attack at a concrete session (team strength 25, enemy at
1000 hit points): the click counter becomes 1 and the surviving-enemy branch applies. -/
theorem manual_dmg_resolution_witness :
    gsW.manual_dmg.player.clicks = gsW.player.clicks + 1
    ∧ (gsW.scene.active_enemy.s_hp.hp ≤ gsW.player.active_team.get_team_power.str →
        gsW.manual_dmg.player.total_defeated = gsW.player.total_defeated + 1
        ∧ gsW.manual_dmg.player.active_team
            = (gsW.player.add_exp_to_pets (gsW.scene.active_enemy.data.s_level.given_exp 1)).active_team)
    ∧ (gsW.player.active_team.get_team_power.str < gsW.scene.active_enemy.s_hp.hp →
        gsW.manual_dmg.player.total_defeated = gsW.player.total_defeated
        ∧ gsW.manual_dmg.player.active_team = gsW.player.active_team
        ∧ gsW.manual_dmg.scene.active_enemy.s_hp.hp
            = gsW.scene.active_enemy.s_hp.hp - gsW.player.active_team.get_team_power.str) :=
  manual_dmg_resolution gsW (by decide) (by decide) (by decide)

/-- Claim C10: with an empty template pool a dead active enemy stays in place: every further
`do_damage` with d ≥ 0 leaves the scene untouched and returns the same dead snapshot, and each
further `manual_dmg` increments `total_defeated` and awards the team the dead enemy's
`given_exp(1)` again, with no replacement enemy ever installed. -/
theorem dead_enemy_refarmed (gs : GameState)
    (hpool : gs.scene.possible_enemies = [])
    (hdead : gs.scene.active_enemy.s_hp.hp = 0)
    (hdef : gs.player.total_defeated + 1 < 2 ^ 64) :
    (∀ d : Int, 0 ≤ d → gs.scene.do_damage d = (gs.scene, some gs.scene.active_enemy))
    ∧ gs.manual_dmg.scene = gs.scene
    ∧ gs.manual_dmg.player.total_defeated = gs.player.total_defeated + 1
    ∧ gs.manual_dmg.player.active_team
        = (gs.player.add_exp_to_pets (gs.scene.active_enemy.data.s_level.given_exp 1)).active_team := by
  have hdd : ∀ d : Int, gs.scene.do_damage d = (gs.scene, some gs.scene.active_enemy) :=
    fun d => do_damage_dead_empty gs.scene hpool hdead d
  have hm := GameState.manual_dmg_some gs gs.scene gs.scene.active_enemy (hdd gs.player.get_power)
  refine ⟨fun d _ => hdd d, ?_, ?_, ?_⟩
  · rw [hm]
  · rw [hm]
    dsimp only
    exact Nat.mod_eq_of_lt hdef
  · rw [hm]
    exact add_exp_to_pets_active_team _ _ _ rfl

/-- Claim C10 witness: the dead-enemy farming behaviour at a concrete session with an empty
pool and a 0-hit-point active enemy. -/
theorem dead_enemy_refarmed_witness :
    (∀ d : Int, 0 ≤ d → gsDeadW.scene.do_damage d = (gsDeadW.scene, some gsDeadW.scene.active_enemy))
    ∧ gsDeadW.manual_dmg.scene = gsDeadW.scene
    ∧ gsDeadW.manual_dmg.player.total_defeated = gsDeadW.player.total_defeated + 1
    ∧ gsDeadW.manual_dmg.player.active_team
        = (gsDeadW.player.add_exp_to_pets
            (gsDeadW.scene.active_enemy.data.s_level.given_exp 1)).active_team :=
  dead_enemy_refarmed gsDeadW rfl rfl (by decide)
